import Mathlib

/-! Verification development for the random-prediction game
    (number-guessing web app backed by a row store and a
    remote randomness service).

    The Python sources are shallowly embedded: each `def` below
    translates one function (or the relevant slice of one) from
    `analytics.py`, `streamlit_app.py` or `api_client.py`.
    Python dictionaries become functions with pointwise update,
    database tables become lists of records, and the fallible
    HTTP call becomes an `Except` value over an explicit
    transport outcome. -/

/-! ## Email normalization

    `analytics.py` normalizes emails with `email.strip().lower()`
    (lines 13, 31, 119); `streamlit_app.py` does the same at line 132.
    Python strings are embedded as `List Char`; `strip` removes
    leading and trailing whitespace, `lower` maps each ASCII
    uppercase letter to its lowercase form. -/

/-- Whitespace as stripped by Python `str.strip()`, restricted to the
    ASCII range: tab, newline, vertical tab, form feed, carriage
    return, space. -/
def pyIsSpace (c : Char) : Bool :=
  c.toNat == 9 || c.toNat == 10 || c.toNat == 11 || c.toNat == 12 ||
  c.toNat == 13 || c.toNat == 32

/-- Python `str.strip()`: drop whitespace from both ends. -/
def pyStrip (l : List Char) : List Char :=
  ((l.dropWhile pyIsSpace).reverse.dropWhile pyIsSpace).reverse

/-- Python `str.lower()` on one character (ASCII case mapping:
    code points 65-90 shift up by 32). -/
def pyLowerChar (c : Char) : Char :=
  if 65 ≤ c.toNat ∧ c.toNat ≤ 90 then Char.ofNat (c.toNat + 32) else c

/-- Python `str.lower()`: lowercase every character. -/
def pyLower (l : List Char) : List Char :=
  l.map pyLowerChar

/-- The expression `email.strip().lower()` used before every
    email-keyed lookup or write. -/
def normalize_email (s : String) : String :=
  ⟨pyLower (pyStrip s.data)⟩

theorem char_toNat_ofNat_of_upper (n : Nat) (h1 : 65 ≤ n) (h2 : n ≤ 90) :
    (Char.ofNat (n + 32)).toNat = n + 32 := by
  have hv : Nat.isValidChar (n + 32) := Or.inl (by omega)
  simp [Char.ofNat, hv, Char.ofNatAux, Char.toNat, UInt32.toNat,
    BitVec.toNat_ofNatLt]

theorem toNat_pyLowerChar_of_upper {c : Char}
    (h : 65 ≤ c.toNat ∧ c.toNat ≤ 90) :
    (pyLowerChar c).toNat = c.toNat + 32 := by
  simp only [pyLowerChar, if_pos h]
  exact char_toNat_ofNat_of_upper c.toNat h.1 h.2

theorem pyLowerChar_idem (c : Char) :
    pyLowerChar (pyLowerChar c) = pyLowerChar c := by
  by_cases h : 65 ≤ c.toNat ∧ c.toNat ≤ 90
  · have ht := toNat_pyLowerChar_of_upper h
    have : ¬(65 ≤ (pyLowerChar c).toNat ∧ (pyLowerChar c).toNat ≤ 90) := by
      omega
    simp only [pyLowerChar] at this ⊢
    rw [if_pos h] at this ⊢
    rw [if_neg this]
  · simp only [pyLowerChar, if_neg h]

theorem pyIsSpace_eq_false_of_upper_range {c : Char} (h : 65 ≤ c.toNat) :
    pyIsSpace c = false := by
  simp only [pyIsSpace, Bool.or_eq_false_iff, beq_eq_false_iff_ne, ne_eq]
  omega

theorem pyIsSpace_pyLowerChar (c : Char) :
    pyIsSpace (pyLowerChar c) = pyIsSpace c := by
  by_cases h : 65 ≤ c.toNat ∧ c.toNat ≤ 90
  · have ht := toNat_pyLowerChar_of_upper h
    rw [pyIsSpace_eq_false_of_upper_range (by omega),
      pyIsSpace_eq_false_of_upper_range h.1]
  · simp only [pyLowerChar, if_neg h]

theorem dropWhile_idem {α : Type} (p : α → Bool) (l : List α) :
    (l.dropWhile p).dropWhile p = l.dropWhile p := by
  induction l with
  | nil => rfl
  | cons x xs ih =>
    by_cases h : p x
    · simp [List.dropWhile_cons, h, ih]
    · simp [List.dropWhile_cons, h]

theorem pyStrip_idem (l : List Char) : pyStrip (pyStrip l) = pyStrip l := by
  have hleft : ∀ m : List Char,
      (((m.dropWhile pyIsSpace).reverse.dropWhile
          pyIsSpace).reverse).dropWhile pyIsSpace
        = ((m.dropWhile pyIsSpace).reverse.dropWhile pyIsSpace).reverse := by
    intro m
    set a := m.dropWhile pyIsSpace with ha
    cases hb : (a.reverse.dropWhile pyIsSpace).reverse with
    | nil => rfl
    | cons y ys =>
      have hsub : a.reverse.dropWhile pyIsSpace <:+ a.reverse :=
        List.dropWhile_suffix pyIsSpace
      have hpref : (a.reverse.dropWhile pyIsSpace).reverse <+: a := by
        have h2 := hsub.reverse
        rwa [List.reverse_reverse] at h2
      rcases hpref with ⟨t, ht⟩
      rw [hb] at ht
      have hd := List.head?_dropWhile_not pyIsSpace m
      rw [← ha, ← ht] at hd
      simp only [List.cons_append, List.head?_cons] at hd
      rw [List.dropWhile_cons, hd]
      simp
  show (((pyStrip l).dropWhile pyIsSpace).reverse.dropWhile
    pyIsSpace).reverse = pyStrip l
  rw [show (pyStrip l).dropWhile pyIsSpace = pyStrip l from hleft l]
  unfold pyStrip
  rw [List.reverse_reverse, dropWhile_idem]

theorem pyLower_idem (l : List Char) : pyLower (pyLower l) = pyLower l := by
  simp only [pyLower, List.map_map]
  exact List.map_congr_left fun c _ => pyLowerChar_idem c

theorem pyStrip_pyLower (l : List Char) :
    pyStrip (pyLower l) = pyLower (pyStrip l) := by
  unfold pyStrip pyLower
  rw [List.dropWhile_map]
  have hp : (pyIsSpace ∘ pyLowerChar) = pyIsSpace :=
    funext fun c => pyIsSpace_pyLowerChar c
  rw [hp, ← List.map_reverse, List.dropWhile_map, hp, ← List.map_reverse]

/-! ## Data model

    Rows of the two tables (`game_runs`, `leaderboard`) from the row
    store, as records. `supabase.table(...).execute()` calls become
    pure list transformations. -/

/-- One row of the `game_runs` table. -/
structure GameRun where
  user_name : String
  email : String
  predictions : List Int
  random_numbers : List Int
  score : Int
  game_type : String
  created_at : Nat
deriving DecidableEq, Repr

/-- One row of the `leaderboard` table. -/
structure LeaderboardEntry where
  name : String
  email : String
  best_score : Int
  total_games_played : Nat
  game_type : String
deriving DecidableEq, Repr

/-! ## Persistence operations (`analytics.py`, `streamlit_app.py`) -/

/-- `analytics.py` lines 9-25, `save_game_run`: normalize the email and
    insert one row into `game_runs`. The row id and `created_at` are
    assigned by the store; `created_at` is passed explicitly here. -/
def save_game_run (runs : List GameRun) (user_name email : String)
    (predictions random_numbers : List Int) (score : Int)
    (game_type : String) (created_at : Nat) : List GameRun :=
  runs ++ [{ user_name := user_name, email := normalize_email email,
             predictions := predictions, random_numbers := random_numbers,
             score := score, game_type := game_type,
             created_at := created_at }]

/-- Row filter used by `update_leaderboard`: the
    `.eq('email', normalized_email).eq('game_type', game_type)`
    condition of `analytics.py` lines 32 and 43-48. -/
def leaderboard_row_match (normalized_email game_type : String)
    (r : LeaderboardEntry) : Bool :=
  r.email == normalized_email && r.game_type == game_type

/-- `analytics.py` lines 27-58, `update_leaderboard`: normalize the
    email, look up the existing row for (email, game_type); if found,
    increment `total_games_played` and overwrite `best_score`/`name`
    only when the new score is strictly greater; otherwise insert a
    fresh row with `total_games_played = 1`. Returns the
    `(bool, message)` pair of the source together with the new table
    contents. `existing.data[0]` is the first matching row; the
    `update` call rewrites every matching row. -/
def update_leaderboard (lb : List LeaderboardEntry)
    (name email : String) (score : Int) (game_type : String) :
    (Bool × String) × List LeaderboardEntry :=
  let normalized_email := normalize_email email
  match lb.find? (leaderboard_row_match normalized_email game_type) with
  | some row =>
    let total_games := row.total_games_played + 1
    if score > row.best_score then
      ((true, "New high score!"),
        lb.map fun r =>
          if leaderboard_row_match normalized_email game_type r then
            { r with name := name, best_score := score,
                     total_games_played := total_games }
          else r)
    else
      ((false, "Your best is still " ++ toString row.best_score ++ "/10"),
        lb.map fun r =>
          if leaderboard_row_match normalized_email game_type r then
            { r with total_games_played := total_games }
          else r)
  | none =>
    ((true, "Added to leaderboard!"),
      lb ++ [{ name := name, email := normalized_email,
               best_score := score, total_games_played := 1,
               game_type := game_type }])

/-- The `order('...', desc=True)` clause of the row store: sort a list
    of rows descending by a Nat key. -/
def sortByDescNat {α : Type} (key : α → Nat) (rows : List α) : List α :=
  List.insertionSort (fun a b => key b ≤ key a) rows

/-- The `order('best_score', desc=True)` clause, for Int keys. -/
def sortByDescInt {α : Type} (key : α → Int) (rows : List α) : List α :=
  List.insertionSort (fun a b => key b ≤ key a) rows

/-- `streamlit_app.py` lines 35-43, `get_leaderboard` before the final
    column projection: filter rows of the requested game type, order
    by `best_score` descending, keep the first 10. -/
def leaderboard_query (lb : List LeaderboardEntry)
    (game_type : String) : List LeaderboardEntry :=
  ((sortByDescInt LeaderboardEntry.best_score
    (lb.filter fun r => r.game_type == game_type)).take 10)

/-- `streamlit_app.py` lines 35-43, `get_leaderboard`: the
    `select('name, best_score')` projection of the query above. -/
def get_leaderboard (lb : List LeaderboardEntry)
    (game_type : String) : List (String × Int) :=
  (leaderboard_query lb game_type).map fun r => (r.name, r.best_score)

/-- `analytics.py` line 120: the `game_runs` query of
    `get_user_analytics` — rows of the normalized email and game type,
    ordered by `created_at` descending (most recent first). -/
def get_user_analytics_runs (runs : List GameRun)
    (email game_type : String) : List GameRun :=
  sortByDescNat GameRun.created_at
    (runs.filter fun r =>
      r.email == normalize_email email && r.game_type == game_type)

/-- `analytics.py` line 139: the `score_trend` entry of `user_stats`,
    computed as `df['score'].tolist()[-10:] if len(df) >= 10 else
    df['score'].tolist()` over the descending-ordered frame. Python
    `l[-10:]` keeps the last ten elements. -/
def score_trend (runs : List GameRun) (email game_type : String) :
    List Int :=
  let scores := (get_user_analytics_runs runs email game_type).map
    GameRun.score
  if 10 ≤ scores.length then scores.drop (scores.length - 10) else scores

/-! ## Score evaluator and input validation (`streamlit_app.py`) -/

/-- `streamlit_app.py` lines 25-33, `calculate_score`: convert both
    collections to sets and count the members of the intersection.
    Python sets become deduplicated lists here; `matches` counts the
    distinct user numbers that also occur among the random numbers. -/
def calculate_score (user_numbers random_numbers : List Int) : Nat :=
  let user_set := user_numbers.dedup
  let random_set := random_numbers.dedup
  -- the `matches` variable of the source (`matches` is reserved here)
  let match_count :=
    (user_set.filter fun n => decide (n ∈ random_set)).length
  match_count

/-- `streamlit_app.py` lines 86-98 of `show_game_tab`: the gate on the
    generate button. `zeros_count` counts unset slots,
    `valid_numbers` keeps the positive entries, and the button is
    enabled exactly when `zeros_count == 0 and len(valid_numbers) == 10`.
    Uniqueness is NOT part of this condition. -/
def can_play (user_numbers : List Int) : Bool :=
  let zeros_count := user_numbers.count 0
  let valid_numbers := user_numbers.filter fun n => decide (n > 0)
  zeros_count == 0 && valid_numbers.length == 10

/-- `streamlit_app.py` lines 91-94: the `elif` branch that shows the
    duplicate warning — reached when there is no zero slot but the
    positive entries are not pairwise distinct. -/
def duplicate_warning (user_numbers : List Int) : Bool :=
  let zeros_count := user_numbers.count 0
  let valid_numbers := user_numbers.filter fun n => decide (n > 0)
  let unique_predictions := valid_numbers.dedup.length
  zeros_count == 0 && unique_predictions < valid_numbers.length

/-! ## Analytics aggregation (`analytics.py`) -/

/-- One `freq[num] = freq.get(num, 0) + 1` step of
    `get_number_frequencies`: Python dictionaries are embedded as
    total count functions. -/
def dict_incr (m : Int → Nat) (num : Int) : Int → Nat :=
  fun k => if k = num then m num + 1 else m k

/-- `analytics.py` lines 91-108, `get_number_frequencies`: walk the
    stored runs and accumulate, for predictions and for drawn numbers
    independently, a mapping from number to occurrence count. -/
def get_number_frequencies (runs : List GameRun) :
    (Int → Nat) × (Int → Nat) :=
  runs.foldl
    (fun freqs run =>
      (run.predictions.foldl dict_incr freqs.1,
       run.random_numbers.foldl dict_incr freqs.2))
    (fun _ => 0, fun _ => 0)

/-- `analytics.py` lines 156-165, the grid-filling loop of
    `create_number_heatmap`: starting from an all-zero 10x10 grid,
    write each frequency of a number in [1,99] at
    `row = (num - 1) // 10, col = (num - 1) % 10`. The dictionary
    items are passed as a list of (number, frequency) pairs; the grid
    is a function from (row, col) to the stored value. -/
def create_number_heatmap (frequencies : List (Int × Nat)) :
    Nat → Nat → Nat :=
  frequencies.foldl
    (fun grid nf =>
      if 1 ≤ nf.1 ∧ nf.1 ≤ 99 then
        let row := (nf.1 - 1).toNat / 10
        let col := (nf.1 - 1).toNat % 10
        fun i j => if i = row ∧ j = col then nf.2 else grid i j
      else grid)
    (fun _ _ => 0)

/-! ## Randomness gateway (`api_client.py`) -/

/-- The JSON body of a response from the randomness service, reduced
    to the two fields `generate_random_numbers` inspects: the
    `result.random.data` payload (when the `result` field is present)
    and the `error` field. -/
structure RandomOrgResponse where
  result : Option (List Int)
  err : Option String
deriving DecidableEq, Repr

/-- Outcome of the `requests.post` round trip: either the connection
    fails (a `RequestException`), or a response arrives with an
    HTTP status (`status_ok = false` makes `raise_for_status` raise)
    and a JSON body. -/
inductive HttpOutcome where
  | network_failure (msg : String)
  | response (status_ok : Bool) (body : RandomOrgResponse)
deriving DecidableEq, Repr

/-- `api_client.py` lines 12-40, `generate_random_numbers`: on a
    connection failure or an HTTP error status the
    `except RequestException` arm raises `Network error: ...`; on a
    body with `result` present the payload is returned; on a body
    without `result` the inner `API Error` exception is raised and
    re-wrapped by the `except Exception` arm. -/
def generate_random_numbers (outcome : HttpOutcome) :
    Except String (List Int) :=
  match outcome with
  | .network_failure msg => .error ("Network error: " ++ msg)
  | .response status_ok body =>
    if status_ok then
      match body.result with
      | some data => .ok data
      | none =>
        .error ("Random.org API error: API Error: "
          ++ body.err.getD "Unknown error")
    else .error "Network error: HTTP status error"

/-! ## Helper lemmas -/

theorem normalize_email_idem (s : String) :
    normalize_email (normalize_email s) = normalize_email s := by
  show (⟨pyLower (pyStrip (pyLower (pyStrip s.data)))⟩ : String)
    = ⟨pyLower (pyStrip s.data)⟩
  rw [pyStrip_pyLower, pyStrip_idem, pyLower_idem]

theorem update_leaderboard_find_none
    (lb : List LeaderboardEntry) (name email : String) (score : Int)
    (game_type : String)
    (h : lb.find? (leaderboard_row_match (normalize_email email) game_type)
      = none) :
    update_leaderboard lb name email score game_type
      = ((true, "Added to leaderboard!"),
         lb ++ [{ name := name, email := normalize_email email,
                  best_score := score, total_games_played := 1,
                  game_type := game_type }]) := by
  simp only [update_leaderboard, h]

theorem update_leaderboard_find_some
    (lb : List LeaderboardEntry) (name email : String) (score : Int)
    (game_type : String) (row : LeaderboardEntry)
    (h : lb.find? (leaderboard_row_match (normalize_email email) game_type)
      = some row) :
    (update_leaderboard lb name email score game_type).1.1
      = decide (score > row.best_score)
    ∧ ∃ row' ∈ (update_leaderboard lb name email score game_type).2,
        row'.total_games_played = row.total_games_played + 1
        ∧ row'.best_score
            = (if score > row.best_score then score else row.best_score)
        ∧ row'.name = (if score > row.best_score then name else row.name)
        ∧ row'.email = row.email ∧ row'.game_type = row.game_type := by
  have hmem : row ∈ lb := List.mem_of_find?_eq_some h
  have hmatch : leaderboard_row_match (normalize_email email) game_type row
      = true := List.find?_some h
  by_cases hs : score > row.best_score
  · refine ⟨by simp [update_leaderboard, h, hs], ?_⟩
    refine ⟨{ row with name := name, best_score := score, total_games_played := row.total_games_played + 1 }, ?_, by simp [hs]⟩
    simp only [update_leaderboard, h, if_pos hs]
    exact List.mem_map.mpr ⟨row, hmem, by simp [hmatch]⟩
  · refine ⟨by simp [update_leaderboard, h, hs], ?_⟩
    refine ⟨{ row with total_games_played := row.total_games_played + 1 }, ?_, by simp [hs]⟩
    simp only [update_leaderboard, h, if_neg hs]
    exact List.mem_map.mpr ⟨row, hmem, by simp [hmatch]⟩

/-! ## Claim theorems -/

/-- C5: email normalization (trim surrounding whitespace then
    lowercase) is idempotent, normalizes " Foo@Bar.COM " to
    "foo@bar.com", and every persistence operation keyed on email
    (saving a run, upserting the leaderboard, fetching a user's runs)
    applies it before any lookup or write, so each operation is
    invariant under pre-normalizing its email argument. -/
theorem email_normalization_idempotent_and_applied :
    (∀ s : String,
      normalize_email (normalize_email s) = normalize_email s)
    ∧ normalize_email " Foo@Bar.COM " = "foo@bar.com"
    ∧ (∀ runs user_name email predictions random_numbers score game_type
        created_at,
        save_game_run runs user_name email predictions random_numbers
            score game_type created_at
          = save_game_run runs user_name (normalize_email email)
              predictions random_numbers score game_type created_at)
    ∧ (∀ lb name email score game_type,
        update_leaderboard lb name email score game_type
          = update_leaderboard lb name (normalize_email email) score
              game_type)
    ∧ (∀ runs email game_type,
        get_user_analytics_runs runs email game_type
          = get_user_analytics_runs runs (normalize_email email)
              game_type) := by
  refine ⟨normalize_email_idem, by decide, ?_, ?_, ?_⟩
  · intro runs user_name email predictions random_numbers score game_type
      created_at
    simp only [save_game_run, normalize_email_idem]
  · intro lb name email score game_type
    simp only [update_leaderboard, normalize_email_idem]
  · intro runs email game_type
    simp only [get_user_analytics_runs, normalize_email_idem]

/-- C1: the leaderboard upsert normalizes the email, then: with no
    row for (normalized email, game_type) it inserts a row with
    `total_games_played = 1` and `best_score = score` and reports a
    new best; with an existing first-found row it increments
    `total_games_played` unconditionally, overwrites
    `best_score`/`name` exactly when the score is strictly greater,
    and the returned flag is true exactly in that case. For a fresh
    (email, game_type), runs with scores 6, 4, 9 leave
    (games=1, best=6), then (games=2, best=6, flag=false), then
    (games=3, best=9, flag=true). -/
theorem leaderboard_upsert_semantics :
    (∀ (lb : List LeaderboardEntry) (name email : String) (score : Int)
        (game_type : String),
      lb.find? (leaderboard_row_match (normalize_email email) game_type)
          = none →
      update_leaderboard lb name email score game_type
        = ((true, "Added to leaderboard!"),
           lb ++ [{ name := name, email := normalize_email email, best_score := score, total_games_played := 1, game_type := game_type }]))
    ∧ (∀ (lb : List LeaderboardEntry) (name email : String) (score : Int)
        (game_type : String) (row : LeaderboardEntry),
      lb.find? (leaderboard_row_match (normalize_email email) game_type)
          = some row →
      (update_leaderboard lb name email score game_type).1.1
        = decide (score > row.best_score)
      ∧ ∃ row' ∈ (update_leaderboard lb name email score game_type).2,
          row'.total_games_played = row.total_games_played + 1
          ∧ row'.best_score
              = (if score > row.best_score then score else row.best_score)
          ∧ row'.name = (if score > row.best_score then name else row.name)
          ∧ row'.email = row.email ∧ row'.game_type = row.game_type)
    ∧ ((update_leaderboard [] "P" "p@x.com" 6 "1-99_range_10_numbers").2
        = [{ name := "P", email := "p@x.com", best_score := 6, total_games_played := 1, game_type := "1-99_range_10_numbers" }]
      ∧ (update_leaderboard [{ name := "P", email := "p@x.com", best_score := 6, total_games_played := 1, game_type := "1-99_range_10_numbers" }] "P" "p@x.com" 4 "1-99_range_10_numbers").1.1 = false
      ∧ (update_leaderboard [{ name := "P", email := "p@x.com", best_score := 6, total_games_played := 1, game_type := "1-99_range_10_numbers" }] "P" "p@x.com" 4 "1-99_range_10_numbers").2
        = [{ name := "P", email := "p@x.com", best_score := 6, total_games_played := 2, game_type := "1-99_range_10_numbers" }]
      ∧ (update_leaderboard [{ name := "P", email := "p@x.com", best_score := 6, total_games_played := 2, game_type := "1-99_range_10_numbers" }] "P" "p@x.com" 9 "1-99_range_10_numbers").1.1 = true
      ∧ (update_leaderboard [{ name := "P", email := "p@x.com", best_score := 6, total_games_played := 2, game_type := "1-99_range_10_numbers" }] "P" "p@x.com" 9 "1-99_range_10_numbers").2
        = [{ name := "P", email := "p@x.com", best_score := 9, total_games_played := 3, game_type := "1-99_range_10_numbers" }]) := by
  refine ⟨?_, ?_, by decide⟩
  · intro lb name email score game_type h
    exact update_leaderboard_find_none lb name email score game_type h
  · intro lb name email score game_type row h
    exact update_leaderboard_find_some lb name email score game_type row h

/-- C1 witness: the no-existing-row case of the upsert evaluated at a
    concrete empty table. -/
theorem leaderboard_upsert_semantics_witness :
    List.find? (leaderboard_row_match (normalize_email "w@x.com") "g")
        ([] : List LeaderboardEntry) = none
    ∧ update_leaderboard [] "W" "w@x.com" 5 "g"
        = ((true, "Added to leaderboard!"),
           [{ name := "W", email := normalize_email "w@x.com", best_score := 5, total_games_played := 1, game_type := "g" }]) :=
  ⟨rfl, leaderboard_upsert_semantics.1 [] "W" "w@x.com" 5 "g" rfl⟩

/-- C10: the first leaderboard upsert for a (normalized email,
    game_type) with no existing row reports isNewBest = true with the
    newly-added status message, for every score, including 0. -/
theorem update_leaderboard_fresh_insert_is_new_best :
    ∀ (lb : List LeaderboardEntry) (name email : String) (score : Int)
      (game_type : String),
      lb.find? (leaderboard_row_match (normalize_email email) game_type)
          = none →
      (update_leaderboard lb name email score game_type).1.1 = true
      ∧ (update_leaderboard lb name email score game_type).1.2
          = "Added to leaderboard!"
      ∧ { name := name, email := normalize_email email, best_score := score, total_games_played := 1, game_type := game_type }
          ∈ (update_leaderboard lb name email score game_type).2 := by
  intro lb name email score game_type h
  rw [update_leaderboard_find_none lb name email score game_type h]
  exact ⟨rfl, rfl, by simp⟩

/-- C10 witness: a fresh upsert with score 0 still reports a new
    best. -/
theorem update_leaderboard_fresh_insert_is_new_best_witness :
    List.find? (leaderboard_row_match (normalize_email "z@x.com") "g")
        ([] : List LeaderboardEntry) = none
    ∧ ((update_leaderboard [] "Z" "z@x.com" 0 "g").1.1 = true
      ∧ (update_leaderboard [] "Z" "z@x.com" 0 "g").1.2
          = "Added to leaderboard!"
      ∧ { name := "Z", email := normalize_email "z@x.com", best_score := 0, total_games_played := 1, game_type := "g" }
          ∈ (update_leaderboard [] "Z" "z@x.com" 0 "g").2) :=
  ⟨rfl, update_leaderboard_fresh_insert_is_new_best [] "Z" "z@x.com" 0 "g" rfl⟩

theorem calculate_score_eq_card (A B : List Int) :
    calculate_score A B = (A.toFinset ∩ B.toFinset).card := by
  have h1 : calculate_score A B
      = (A.dedup.filter fun n => decide (n ∈ B)).length := by
    simp only [calculate_score]
    apply congrArg List.length
    apply List.filter_congr
    intro x _
    simp [List.mem_dedup]
  rw [h1]
  have hnd : (A.dedup.filter fun n => decide (n ∈ B)).Nodup :=
    A.nodup_dedup.filter _
  rw [← List.toFinset_card_of_nodup hnd, List.toFinset_filter]
  have hdt : A.dedup.toFinset = A.toFinset := by
    ext x
    simp [List.mem_dedup]
  rw [hdt]
  congr 1
  rw [← Finset.filter_mem_eq_inter]
  apply Finset.filter_congr
  intro x _
  simp [List.mem_toFinset]

/-- C2: the score evaluator returns the cardinality of the set
    intersection of its two integer sequences; duplicates inside
    either argument and the order of either argument never change the
    result, and score([1,1,2], [1,2,2,3]) = 2. -/
theorem calculate_score_distinct_overlap :
    (∀ A B : List Int,
      calculate_score A B = (A.toFinset ∩ B.toFinset).card)
    ∧ (∀ A B : List Int,
      calculate_score A B = calculate_score A.dedup B.dedup)
    ∧ (∀ A A' B B' : List Int, A.Perm A' → B.Perm B' →
      calculate_score A B = calculate_score A' B')
    ∧ calculate_score [1, 1, 2] [1, 2, 2, 3] = 2 := by
  refine ⟨calculate_score_eq_card, ?_, ?_, by decide⟩
  · intro A B
    rw [calculate_score_eq_card, calculate_score_eq_card]
    have hA : A.dedup.toFinset = A.toFinset := by
      ext x
      simp [List.mem_dedup]
    have hB : B.dedup.toFinset = B.toFinset := by
      ext x
      simp [List.mem_dedup]
    rw [hA, hB]
  · intro A A' B B' hA hB
    rw [calculate_score_eq_card, calculate_score_eq_card,
      List.toFinset_eq_of_perm A A' hA, List.toFinset_eq_of_perm B B' hB]

/-- C2 witness: permutation invariance evaluated at concrete lists
    with duplicates. -/
theorem calculate_score_distinct_overlap_witness :
    ([1, 2, 2] : List Int).Perm [2, 1, 2]
    ∧ ([3, 1] : List Int).Perm [1, 3]
    ∧ calculate_score [1, 2, 2] [3, 1] = calculate_score [2, 1, 2] [1, 3] :=
  ⟨by decide, by decide,
    calculate_score_distinct_overlap.2.2.1 [1, 2, 2] [2, 1, 2] [3, 1] [1, 3]
      (by decide) (by decide)⟩

/-- C3 counterexample: a ten-slot input with a duplicate value and no
    zero slot still enables the generate action — the gate
    `zeros_count == 0 and len(valid_numbers) == 10` does not test
    uniqueness. -/
theorem can_play_allows_duplicate_slots :
    can_play [1, 1, 2, 3, 4, 5, 6, 7, 8, 9] = true
    ∧ ¬ ([1, 1, 2, 3, 4, 5, 6, 7, 8, 9] : List Int).Nodup := by decide

/-- C3 (amended): for a ten-slot input with nonnegative entries,
    progression to the draw is blocked exactly when some slot is
    zero/unset; a duplicate value does not block progression — it
    only triggers the duplicate warning, which fires exactly when no
    slot is zero and the entries are not pairwise distinct. -/
theorem can_play_blocks_only_zeros :
    ∀ u : List Int, u.length = 10 → (∀ n ∈ u, 0 ≤ n) →
      (can_play u = true ↔ (0 : Int) ∉ u)
      ∧ (duplicate_warning u = true ↔ ((0 : Int) ∉ u ∧ ¬ u.Nodup)) := by
  intro u hlen hnn
  have hfil : (0 : Int) ∉ u →
      u.filter (fun n => decide (n > 0)) = u := by
    intro h0
    apply List.filter_eq_self.mpr
    intro a ha
    have h1 := hnn a ha
    have h2 : a ≠ 0 := fun e => h0 (e ▸ ha)
    simp only [decide_eq_true_eq]
    omega
  constructor
  · simp only [can_play, Bool.and_eq_true, beq_iff_eq]
    constructor
    · rintro ⟨h0, -⟩
      exact List.count_eq_zero.mp h0
    · intro h0
      refine ⟨List.count_eq_zero.mpr h0, ?_⟩
      rw [hfil h0, hlen]
  · simp only [duplicate_warning, Bool.and_eq_true, beq_iff_eq,
      decide_eq_true_eq]
    constructor
    · rintro ⟨h0, hlt⟩
      have h0' := List.count_eq_zero.mp h0
      refine ⟨h0', ?_⟩
      rw [hfil h0'] at hlt
      intro hnd
      rw [hnd.dedup] at hlt
      exact lt_irrefl _ hlt
    · rintro ⟨h0', hnd⟩
      refine ⟨List.count_eq_zero.mpr h0', ?_⟩
      rw [hfil h0']
      have hle : u.dedup.length ≤ u.length := u.dedup_sublist.length_le
      have hne : u.dedup.length ≠ u.length := by
        intro he
        have heq : u.dedup = u := u.dedup_sublist.eq_of_length he
        exact hnd (heq ▸ u.nodup_dedup)
      omega

/-- C3 witness: the amended gate evaluated at a concrete valid
    ten-slot input. -/
theorem can_play_blocks_only_zeros_witness :
    ([1, 2, 3, 4, 5, 6, 7, 8, 9, 10] : List Int).length = 10
    ∧ (∀ n ∈ ([1, 2, 3, 4, 5, 6, 7, 8, 9, 10] : List Int), 0 ≤ n)
    ∧ ((can_play [1, 2, 3, 4, 5, 6, 7, 8, 9, 10] = true
        ↔ (0 : Int) ∉ ([1, 2, 3, 4, 5, 6, 7, 8, 9, 10] : List Int))
      ∧ (duplicate_warning [1, 2, 3, 4, 5, 6, 7, 8, 9, 10] = true
        ↔ ((0 : Int) ∉ ([1, 2, 3, 4, 5, 6, 7, 8, 9, 10] : List Int)
            ∧ ¬ ([1, 2, 3, 4, 5, 6, 7, 8, 9, 10] : List Int).Nodup))) :=
  ⟨by decide, by decide,
    can_play_blocks_only_zeros [1, 2, 3, 4, 5, 6, 7, 8, 9, 10]
      (by decide) (by decide)⟩

/-- C6: a response from the randomness service whose JSON body lacks
    the `result` field makes the draw return an error to its caller,
    never a silent empty or missing sequence; a connection failure
    likewise returns an error; and a successful value is only ever
    the payload the service actually provided in `result`. -/
theorem generate_random_numbers_error_on_missing_result :
    (∀ (status_ok : Bool) (body : RandomOrgResponse),
      body.result = none →
      ∃ msg, generate_random_numbers (.response status_ok body)
        = .error msg)
    ∧ (∀ msg, ∃ m,
        generate_random_numbers (.network_failure msg) = .error m)
    ∧ (∀ (outcome : HttpOutcome) (data : List Int),
        generate_random_numbers outcome = .ok data →
        ∃ status_ok body, outcome = .response status_ok body
          ∧ body.result = some data) := by
  refine ⟨?_, fun msg => ⟨"Network error: " ++ msg, rfl⟩, ?_⟩
  · intro status_ok body hres
    cases status_ok with
    | false => exact ⟨"Network error: HTTP status error", rfl⟩
    | true =>
      refine ⟨"Random.org API error: API Error: "
        ++ body.err.getD "Unknown error", ?_⟩
      simp [generate_random_numbers, hres]
  · intro outcome data hok
    cases outcome with
    | network_failure msg => exact absurd hok (by simp [generate_random_numbers])
    | response status_ok body =>
      refine ⟨status_ok, body, rfl, ?_⟩
      cases status_ok with
      | false => exact absurd hok (by simp [generate_random_numbers])
      | true =>
        cases hres : body.result with
        | some d =>
          have : generate_random_numbers (.response true body) = .ok d := by
            simp [generate_random_numbers, hres]
          rw [this] at hok
          injection hok with hde
          rw [hde]
        | none =>
          rw [show generate_random_numbers (.response true body)
            = .error ("Random.org API error: API Error: "
              ++ body.err.getD "Unknown error") by
              simp [generate_random_numbers, hres]] at hok
          cases hok

/-- C6 witness: a body with no `result` field and a service error
    payload yields an error outcome. -/
theorem generate_random_numbers_error_on_missing_result_witness :
    (({ result := none, err := some "boom" } : RandomOrgResponse).result
      = none)
    ∧ ∃ msg, generate_random_numbers
        (.response true { result := none, err := some "boom" })
        = .error msg :=
  ⟨rfl, generate_random_numbers_error_on_missing_result.1 true
    { result := none, err := some "boom" } rfl⟩

/-- C7: the heatmap bucketing writes the frequency of a number n in
    [1,99] at grid cell row = (n-1) div 10, col = (n-1) mod 10 and
    nowhere else; in particular 1 lands at (0,0), 10 at (0,9),
    11 at (1,0) and 99 at (9,8). -/
theorem create_number_heatmap_bucketing :
    (∀ (num : Int) (freq : Nat) (i j : Nat), 1 ≤ num → num ≤ 99 →
      create_number_heatmap [(num, freq)] i j
        = if i = (num - 1).toNat / 10 ∧ j = (num - 1).toNat % 10 then freq
          else 0)
    ∧ create_number_heatmap [(1, 5)] 0 0 = 5
    ∧ create_number_heatmap [(10, 6)] 0 9 = 6
    ∧ create_number_heatmap [(11, 7)] 1 0 = 7
    ∧ create_number_heatmap [(99, 8)] 9 8 = 8 := by
  refine ⟨?_, by decide, by decide, by decide, by decide⟩
  intro num freq i j h1 h2
  simp only [create_number_heatmap, List.foldl_cons, List.foldl_nil,
    if_pos (And.intro h1 h2)]

/-- C7 witness: the bucketing formula evaluated at number 42. -/
theorem create_number_heatmap_bucketing_witness :
    (1 : Int) ≤ 42 ∧ (42 : Int) ≤ 99
    ∧ create_number_heatmap [(42, 3)] 4 1
        = (if 4 = ((42 : Int) - 1).toNat / 10
            ∧ 1 = ((42 : Int) - 1).toNat % 10 then 3 else 0) :=
  ⟨by decide, by decide,
    create_number_heatmap_bucketing.1 42 3 4 1 (by decide) (by decide)⟩

/-- C8: the top-N leaderboard fetch keeps only rows of the requested
    game type, returns them sorted descending by best_score and
    limited to 10; it is a permutation split of the filtered rows in
    which every returned entry scores at least as high as every entry
    left out, so no top-10 entry is dropped (ties may land in any
    order); the UI rows are the (name, best_score) projection of this
    query. -/
theorem get_leaderboard_top10_sorted :
    ∀ (lb : List LeaderboardEntry) (game_type : String),
      (leaderboard_query lb game_type).Pairwise
        (fun a b => b.best_score ≤ a.best_score)
      ∧ (leaderboard_query lb game_type).length
          = min 10 (lb.filter fun r => r.game_type == game_type).length
      ∧ (∃ dropped : List LeaderboardEntry,
          (lb.filter fun r => r.game_type == game_type).Perm
            (leaderboard_query lb game_type ++ dropped)
          ∧ ∀ a ∈ leaderboard_query lb game_type, ∀ b ∈ dropped,
              b.best_score ≤ a.best_score)
      ∧ get_leaderboard lb game_type
          = (leaderboard_query lb game_type).map
              fun r => (r.name, r.best_score) := by
  intro lb game_type
  set filtered := lb.filter fun r => r.game_type == game_type with hfl
  haveI : IsTotal LeaderboardEntry
      (fun a b => b.best_score ≤ a.best_score) :=
    ⟨fun a b => le_total b.best_score a.best_score⟩
  haveI : IsTrans LeaderboardEntry
      (fun a b => b.best_score ≤ a.best_score) :=
    ⟨fun a b c hab hbc => le_trans hbc hab⟩
  have hPW : (List.insertionSort
      (fun a b : LeaderboardEntry => b.best_score ≤ a.best_score)
      filtered).Pairwise (fun a b => b.best_score ≤ a.best_score) :=
    List.sorted_insertionSort _ filtered
  have hquery : leaderboard_query lb game_type
      = (List.insertionSort
          (fun a b : LeaderboardEntry => b.best_score ≤ a.best_score)
          filtered).take 10 := rfl
  refine ⟨?_, ?_, ⟨(List.insertionSort
    (fun a b : LeaderboardEntry => b.best_score ≤ a.best_score)
    filtered).drop 10, ?_, ?_⟩, rfl⟩
  · rw [hquery]
    exact List.Pairwise.sublist (List.take_sublist 10 _) hPW
  · rw [hquery, List.length_take,
      (List.perm_insertionSort
        (fun a b : LeaderboardEntry => b.best_score ≤ a.best_score)
        filtered).length_eq]
  · rw [hquery, List.take_append_drop]
    exact (List.perm_insertionSort
      (fun a b : LeaderboardEntry => b.best_score ≤ a.best_score)
      filtered).symm
  · intro a ha b hb
    rw [hquery] at ha
    have hsplit := hPW
    rw [← List.take_append_drop 10 (List.insertionSort
      (fun a b : LeaderboardEntry => b.best_score ≤ a.best_score)
      filtered)] at hsplit
    exact (List.pairwise_append.mp hsplit).2.2 a ha b hb

/-- C8 witness: the sortedness clause evaluated at a concrete
    three-row table. -/
theorem get_leaderboard_top10_sorted_witness :
    (leaderboard_query
      [{ name := "A", email := "a@x.com", best_score := 3, total_games_played := 1, game_type := "g" },
       { name := "B", email := "b@x.com", best_score := 7, total_games_played := 2, game_type := "g" },
       { name := "C", email := "c@x.com", best_score := 5, total_games_played := 1, game_type := "h" }]
      "g").Pairwise (fun a b => b.best_score ≤ a.best_score) :=
  (get_leaderboard_top10_sorted
    [{ name := "A", email := "a@x.com", best_score := 3, total_games_played := 1, game_type := "g" },
     { name := "B", email := "b@x.com", best_score := 7, total_games_played := 2, game_type := "g" },
     { name := "C", email := "c@x.com", best_score := 5, total_games_played := 1, game_type := "h" }]
    "g").1

theorem foldl_dict_incr_apply (l : List Int) (m : Int → Nat) (k : Int) :
    (l.foldl dict_incr m) k = m k + l.count k := by
  induction l generalizing m with
  | nil => simp
  | cons x xs ih =>
    rw [List.foldl_cons, ih]
    simp only [dict_incr, List.count_cons]
    by_cases h : k = x
    · subst h
      simp
      omega
    · have hbe : (k == x) = false := by simp [h]
      simp [h, hbe]
      omega

theorem foldl_runs_dict_incr (g : GameRun → List Int)
    (runs : List GameRun) (m : Int → Nat) (k : Int) :
    (runs.foldl (fun acc run => (g run).foldl dict_incr acc) m) k
      = m k + (runs.flatMap g).count k := by
  induction runs generalizing m with
  | nil => simp
  | cons r rs ih =>
    rw [List.foldl_cons, ih, foldl_dict_incr_apply,
      List.flatMap_cons, List.count_append]
    omega

theorem get_number_frequencies_split (runs : List GameRun) :
    ∀ acc : (Int → Nat) × (Int → Nat),
      runs.foldl
        (fun freqs run =>
          (run.predictions.foldl dict_incr freqs.1,
           run.random_numbers.foldl dict_incr freqs.2)) acc
        = (runs.foldl
            (fun m run => run.predictions.foldl dict_incr m) acc.1,
           runs.foldl
            (fun m run => run.random_numbers.foldl dict_incr m) acc.2) := by
  induction runs with
  | nil => intro acc; rfl
  | cons r rs ih =>
    intro acc
    rw [List.foldl_cons, ih]
    rfl

theorem get_number_frequencies_count (runs : List GameRun) (k : Int) :
    (get_number_frequencies runs).1 k
      = (runs.flatMap fun r => r.predictions).count k
    ∧ (get_number_frequencies runs).2 k
      = (runs.flatMap fun r => r.random_numbers).count k := by
  unfold get_number_frequencies
  rw [get_number_frequencies_split]
  constructor
  · have h := foldl_runs_dict_incr (fun r => r.predictions) runs
      (fun _ => 0) k
    simpa using h
  · have h := foldl_runs_dict_incr (fun r => r.random_numbers) runs
      (fun _ => 0) k
    simpa using h

/-- C9: frequency-table construction is order-independent — for every
    permutation of the stored run list, the prediction-frequency and
    draw-frequency mappings built by get_number_frequencies are equal
    as number-to-count functions. -/
theorem get_number_frequencies_perm_invariant :
    ∀ runs runs' : List GameRun, runs.Perm runs' →
      get_number_frequencies runs = get_number_frequencies runs' := by
  intro runs runs' h
  have hfst : (get_number_frequencies runs).1
      = (get_number_frequencies runs').1 := by
    funext k
    rw [(get_number_frequencies_count runs k).1,
      (get_number_frequencies_count runs' k).1]
    exact (h.flatMap_right _).count_eq k
  have hsnd : (get_number_frequencies runs).2
      = (get_number_frequencies runs').2 := by
    funext k
    rw [(get_number_frequencies_count runs k).2,
      (get_number_frequencies_count runs' k).2]
    exact (h.flatMap_right _).count_eq k
  exact Prod.ext hfst hsnd

/-- C9 witness: swapping two concrete runs leaves both frequency
    mappings unchanged. -/
theorem get_number_frequencies_perm_invariant_witness :
    get_number_frequencies
      [{ user_name := "U", email := "u@x.com", predictions := [1, 2], random_numbers := [2, 3], score := 1, game_type := "g", created_at := 1 },
       { user_name := "V", email := "v@x.com", predictions := [2, 5], random_numbers := [1, 2], score := 1, game_type := "g", created_at := 2 }]
      = get_number_frequencies
      [{ user_name := "V", email := "v@x.com", predictions := [2, 5], random_numbers := [1, 2], score := 1, game_type := "g", created_at := 2 },
       { user_name := "U", email := "u@x.com", predictions := [1, 2], random_numbers := [2, 3], score := 1, game_type := "g", created_at := 1 }] :=
  get_number_frequencies_perm_invariant _ _
    (List.Perm.swap
      ({ user_name := "V", email := "v@x.com", predictions := [2, 5], random_numbers := [1, 2], score := 1, game_type := "g", created_at := 2 } : GameRun)
      ({ user_name := "U", email := "u@x.com", predictions := [1, 2], random_numbers := [2, 3], score := 1, game_type := "g", created_at := 1 } : GameRun)
      [])

/-- Concrete run history used to evaluate the score-trend
    computation: eleven runs by one user, the i-th run created at
    time i with score i. -/
def trend_runs_eleven : List GameRun :=
  (List.range 11).map fun i =>
    { user_name := "U", email := "u@x.com", predictions := [], random_numbers := [], score := Int.ofNat (i + 1), game_type := "g", created_at := i + 1 }

/-- Two-run history: the older run scored 3, the newer scored 7. -/
def trend_runs_two : List GameRun :=
  [{ user_name := "U", email := "u@x.com", predictions := [], random_numbers := [], score := 3, game_type := "g", created_at := 1 },
   { user_name := "U", email := "u@x.com", predictions := [], random_numbers := [], score := 7, game_type := "g", created_at := 2 }]

/-- C4: evaluation of the score_trend computation. With eleven runs
    scored 1..11 in creation order, the code produces the ten oldest
    scores in reverse-chronological order, not the ten most recent
    scores in chronological order; with two runs it likewise returns
    newest-first, not chronological. The `[-10:]` slice is applied to
    the frame ordered by `created_at` descending, so it keeps the
    oldest rows. -/
theorem score_trend_divergence :
    score_trend trend_runs_eleven "u@x.com" "g"
      = [10, 9, 8, 7, 6, 5, 4, 3, 2, 1]
    ∧ score_trend trend_runs_eleven "u@x.com" "g"
      ≠ [2, 3, 4, 5, 6, 7, 8, 9, 10, 11]
    ∧ score_trend trend_runs_two "u@x.com" "g" = [7, 3]
    ∧ score_trend trend_runs_two "u@x.com" "g" ≠ [3, 7] := by decide
